import Mathlib

/-!
Verification development for the tesgazer vehicle-telemetry logger.

This file gives a shallow embedding of the core control-loop code
(state machine, adaptive scheduler, poll dispatch, sleep gate, session
segmenter, streaming client, event fan-out) and proves or refutes the
frozen specification claims about it.

Conventions of the embedding:
* Go `int`/`int64` fields become `ℤ`, Go `float64` becomes `ℚ`
  (exact arithmetic; the claims under study are order- and
  equality-theoretic), Go pointers become `Option`, Go `string`
  becomes `String`.
* Instants and durations are rationals measured in seconds.
* Fallible Go functions become functions into `Except String` or carry
  an explicit error input.
* Mutable service maps (`pollIntervals[carID]`, `lastUsedTimes[carID]`,
  the positions/parkings tables) are threaded explicitly as values for
  the single vehicle under consideration.
-/

namespace Tesgazer

/-- Machine states, from `internal/state` (`StateOnline` … `StateSuspended`). -/
inductive VState where
  | offline
  | asleep
  | online
  | driving
  | charging
  | updating
  | suspended
deriving DecidableEq, Repr

/-- Machine events, from `internal/state` (`EventWakeUp` … `EventResume`). -/
inductive VEvent where
  | wakeUp
  | fallAsleep
  | goOffline
  | startDriving
  | stopDriving
  | startCharging
  | stopCharging
  | startUpdating
  | stopUpdating
  | suspendEv
  | resumeEv
deriving DecidableEq, Repr

/-- The wire names of the machine states (`state.StateOnline = "online"` …). -/
def stateName : VState → String
  | .offline => "offline"
  | .asleep => "asleep"
  | .online => "online"
  | .driving => "driving"
  | .charging => "charging"
  | .updating => "updating"
  | .suspended => "suspended"

/-- The transition table of `NewMachine`: destination of an event fired in a
given state, `none` when the event is not legal there.  One line per
`fsm.Events` entry of the suspended-aware machine. -/
def eventDst : VEvent → VState → Option VState
  | .wakeUp, .offline => some .online
  | .wakeUp, .asleep => some .online
  | .fallAsleep, .online => some .asleep
  | .fallAsleep, .suspended => some .asleep
  | .goOffline, .online => some .offline
  | .goOffline, .asleep => some .offline
  | .goOffline, .suspended => some .offline
  | .startDriving, .online => some .driving
  | .startDriving, .suspended => some .driving
  | .startCharging, .online => some .charging
  | .startCharging, .suspended => some .charging
  | .startUpdating, .online => some .updating
  | .stopDriving, .driving => some .online
  | .stopCharging, .charging => some .online
  | .stopUpdating, .updating => some .online
  | .suspendEv, .online => some .suspended
  | .resumeEv, .suspended => some .online
  | _, _ => none

/-- Embeds `Machine.CanTransition`: the fsm accepts the event in this state. -/
def canTransition (s : VState) (e : VEvent) : Bool :=
  (eventDst e s).isSome

/-- Embeds `Machine.Trigger` restricted to its state effect: move along the legal
edge, stay put (the caller treats the error as a no-op) otherwise. -/
def trigger (s : VState) (e : VEvent) : VState :=
  (eventDst e s).getD s

/-- Configuration fields consumed by the core loop (`config.Config`). -/
structure Config where
  pollIntervalOnline : ℚ
  pollIntervalAsleep : ℚ
  pollIntervalCharging : ℚ
  pollIntervalDriving : ℚ
  pollBackoffInitial : ℚ
  pollBackoffMax : ℚ
  pollBackoffFactor : ℚ
  suspendAfterIdleMin : ℤ
  suspendPollInterval : ℚ
  requireNotUnlocked : Bool
  useStreamingAPI : Bool
deriving DecidableEq, Repr

/-- The defaults of `config.Load` (seconds): online 15 s, asleep 30 s,
charging 5 s, driving 3 s, backoff 1 s / 30 s / ×2.0, suspend after
15 idle minutes, suspended probe every 21 min. -/
def defaultConfig : Config :=
  { pollIntervalOnline := 15
    pollIntervalAsleep := 30
    pollIntervalCharging := 5
    pollIntervalDriving := 3
    pollBackoffInitial := 1
    pollBackoffMax := 30
    pollBackoffFactor := 2
    suspendAfterIdleMin := 15
    suspendPollInterval := 21 * 60
    requireNotUnlocked := false
    useStreamingAPI := true }

/-- Embeds `tesla.MilesToKm`. -/
def MilesToKm (miles : ℚ) : ℚ :=
  miles * (160934 / 100000)

/-- Modelled from the spec: `tesla.MphToKmh` is referenced by the service
code but its definition is not among the source files; per the spec, speeds
cross the reconciliation boundary as mph and are converted to km/h.  The
integer conversion truncates like a Go `int(float64(...) * 1.60934)`. -/
def MphToKmh (mph : ℤ) : ℤ :=
  ⌊(mph : ℚ) * (160934 / 100000)⌋

/-- Embeds `tesla.SoftwareUpdate` (the fields read by the sleep gate). -/
structure SoftwareUpdate where
  downloadPerc : ℤ
  status : String
deriving DecidableEq, Repr

/-- Embeds `tesla.ChargeState` (the fields read by the core loop). -/
structure ChargeState where
  batteryLevel : ℤ
  usableBatteryLevel : ℤ
  estBatteryRange : ℚ
  idealBatteryRange : ℚ
  chargeLimitSoc : ℤ
  chargingState : String
  chargerPower : ℤ
  chargerVoltage : ℤ
  chargerActualCurrent : ℤ
  chargeEnergyAdded : ℚ
  timeToFullCharge : ℚ
deriving DecidableEq, Repr

/-- Embeds `tesla.ClimateState` (the fields read by the core loop). -/
structure ClimateState where
  insideTemp : ℚ
  outsideTemp : ℚ
  isClimateOn : Bool
  isPreconditioning : Bool
deriving DecidableEq, Repr

/-- Embeds `tesla.DriveState`. -/
structure DriveState where
  latitude : ℚ
  longitude : ℚ
  heading : ℤ
  speed : Option ℤ
  power : ℤ
  shiftState : Option String
deriving DecidableEq, Repr

/-- Embeds `tesla.VehicleState` (the body sub-record of the full data bundle; the
service code reads the door/window flags as integers, `!= 0` = open). -/
structure BodyState where
  odometer : ℚ
  locked : Bool
  sentryMode : Bool
  softwareUpdate : Option SoftwareUpdate
  driverDoorOpen : ℤ
  passengerDoorOpen : ℤ
  driverRearDoorOpen : ℤ
  passengerRearDoorOpen : ℤ
  frunkOpen : ℤ
  trunkOpen : ℤ
  driverWindowOpen : ℤ
  passengerWindowOpen : ℤ
  driverRearWindowOpen : ℤ
  passengerRearWindowOpen : ℤ
  isUserPresent : Bool
  carVersion : String
  tpmsPressureFL : Option ℚ
  tpmsPressureFR : Option ℚ
  tpmsPressureRL : Option ℚ
  tpmsPressureRR : Option ℚ
deriving DecidableEq, Repr

/-- Embeds `tesla.VehicleData`: the full acquisition bundle. -/
structure VehicleData where
  state : String
  chargeState : Option ChargeState
  climateState : Option ClimateState
  driveState : Option DriveState
  vehicleState : Option BodyState
deriving DecidableEq, Repr

/-- Any of the four doors is open (`data.VehicleState.DriverDoorOpen != 0 || …`). -/
def anyDoorOpen (v : BodyState) : Bool :=
  v.driverDoorOpen ≠ 0 ∨ v.passengerDoorOpen ≠ 0 ∨
    v.driverRearDoorOpen ≠ 0 ∨ v.passengerRearDoorOpen ≠ 0

/-- Any of the four windows is open. -/
def anyWindowOpen (v : BodyState) : Bool :=
  v.driverWindowOpen ≠ 0 ∨ v.passengerWindowOpen ≠ 0 ∨
    v.driverRearWindowOpen ≠ 0 ∨ v.passengerRearWindowOpen ≠ 0

/-- Embeds `state.VehicleState`: the canonical in-memory snapshot per vehicle
(the suspended-aware revision).  Note it has no sleep-reason field. -/
structure SnapshotState where
  carID : ℤ
  currentState : String
  since : ℚ
  lastUsed : ℚ
  batteryLevel : ℤ
  rangeKm : ℚ
  latitude : ℚ
  longitude : ℚ
  speed : Option ℤ
  power : ℤ
  insideTemp : Option ℚ
  outsideTemp : Option ℚ
  locked : Bool
  sentryMode : Bool
  pluggedIn : Bool
  chargingState : String
  chargerPower : ℤ
  tpmsPressureFL : Option ℚ
  tpmsPressureFR : Option ℚ
  tpmsPressureRL : Option ℚ
  tpmsPressureRR : Option ℚ
  odometer : ℚ
  carVersion : String
  heading : ℤ
  doorsOpen : Bool
  windowsOpen : Bool
  frunkOpen : Bool
  trunkOpen : Bool
  isUserPresent : Bool
  isClimateOn : Bool
  chargeLimitSoc : ℤ
  timeToFullCharge : ℚ
  chargerVoltage : ℤ
  chargerCurrent : ℤ
  usableBatteryLevel : ℤ
  idealRangeKm : ℚ
deriving DecidableEq, Repr

/-- Embeds `models.Position`: one trajectory sample. -/
structure Position where
  carId : ℤ
  driveId : Option ℤ
  latitude : ℚ
  longitude : ℚ
  heading : ℤ
  speed : Option ℤ
  power : ℤ
  odometer : ℚ
  batteryLevel : ℤ
  rangeKm : ℚ
  insideTemp : Option ℚ
  outsideTemp : Option ℚ
  elevation : Option ℤ
  tpmsPressureFL : Option ℚ
  tpmsPressureFR : Option ℚ
  tpmsPressureRL : Option ℚ
  tpmsPressureRR : Option ℚ
  recordedAt : ℚ
deriving DecidableEq, Repr

/-- Embeds `models.Drive` (the fields the embedded operations touch). -/
structure Drive where
  id : ℤ
  carId : ℤ
  startTime : ℚ
  endTime : Option ℚ
  startBatteryLevel : ℤ
  startRangeKm : ℚ
  startOdometerKm : ℚ
deriving DecidableEq, Repr

/-- Embeds `models.Parking` (identity, timing and the start-side snapshot that
`startParking` fills; the end-side fields live in `endParking`, which no
claim under study touches). -/
structure Parking where
  id : ℤ
  carId : ℤ
  startTime : ℚ
  endTime : Option ℚ
  durationMin : ℚ
  latitude : ℚ
  longitude : ℚ
  startBatteryLevel : ℤ
  startRangeKm : ℚ
  startOdometer : ℚ
  startLocked : Bool
  startSentryMode : Bool
  startIsUserPresent : Bool
  startDoorsOpen : Bool
  startWindowsOpen : Bool
  startFrunkOpen : Bool
  startTrunkOpen : Bool
  startTpmsPressureFL : Option ℚ
  startTpmsPressureFR : Option ℚ
  startTpmsPressureRL : Option ℚ
  startTpmsPressureRR : Option ℚ
  carVersion : String
  startInsideTemp : Option ℚ
  startOutsideTemp : Option ℚ
  startIsClimateOn : Bool
deriving DecidableEq, Repr

/-- Embeds `tesla.StreamData` after `parseDataValue`: one parsed streaming tuple. -/
structure StreamData where
  timestamp : ℤ
  speed : ℤ
  odometer : ℚ
  soc : ℤ
  elevation : ℤ
  estHeading : ℤ
  estLat : ℚ
  estLng : ℚ
  power : ℤ
  shiftState : String
  range : ℤ
  estRange : ℤ
  heading : ℤ
deriving DecidableEq, Repr

/-- Embeds `data.VehicleState != nil && flag` guard pattern of the service code. -/
def bodyFlag (d : VehicleData) (f : BodyState → Bool) : Bool :=
  match d.vehicleState with
  | some v => f v
  | none => false

/-- Embeds `data.ClimateState != nil && flag`. -/
def climateFlag (d : VehicleData) (f : ClimateState → Bool) : Bool :=
  match d.climateState with
  | some c => f c
  | none => false

/-- Embeds `canFallAsleep`: the sleep gate's eleven block-conditions, evaluated in
source order; returns the blocking reason, `""` when the vehicle may sleep. -/
def canFallAsleep (cfg : Config) (d : VehicleData) : String :=
  if bodyFlag d (·.isUserPresent) then "user_present"
  else if bodyFlag d (·.sentryMode) then "sentry_mode"
  else if climateFlag d (·.isPreconditioning) then "preconditioning"
  else if climateFlag d (·.isClimateOn) then "climate_on"
  else if bodyFlag d anyDoorOpen then "doors_open"
  else if bodyFlag d (·.trunkOpen ≠ 0) then "trunk_open"
  else if bodyFlag d (·.frunkOpen ≠ 0) then "frunk_open"
  else if bodyFlag d anyWindowOpen then "windows_open"
  else if cfg.requireNotUnlocked ∧ bodyFlag d (¬ ·.locked) then "unlocked"
  else if (match d.driveState with
           | some ds => decide (ds.power > 0)
           | none => false) then "power_usage"
  else if (match d.vehicleState with
           | some v =>
             match v.softwareUpdate with
             | some su => decide (su.status = "downloading") && decide (su.downloadPerc < 100)
             | none => false
           | none => false) then "downloading_update"
  else ""

/-- What the sleep gate leaves behind for one vehicle: machine state, the
`lastUsedTimes[carID]` and `pollIntervals[carID]` entries, and the in-memory
snapshot. -/
structure GateOutcome where
  state : VState
  lastUsed : Option ℚ
  pollInterval : Option ℚ
  snapshot : SnapshotState
deriving DecidableEq, Repr

/-- Embeds `tryToSuspend`: called after a full poll; no-op unless the machine is
`online`.  A non-empty block reason only logs and marks the vehicle active
(`markVehicleActive`, i.e. `lastUsedTimes[carID] ← now`); otherwise, once the
idle time reaches `SuspendAfterIdleMin` minutes, `suspend` is fired and
`pollIntervals[carID] ← SuspendPollInterval`.  The function never writes the
snapshot; it is threaded through to record that fact. -/
def tryToSuspend (cfg : Config) (now : ℚ) (s : VState) (d : VehicleData)
    (lastUsed0 pollInterval0 : Option ℚ) (vs : SnapshotState) : GateOutcome :=
  if s ≠ VState.online then ⟨s, lastUsed0, pollInterval0, vs⟩
  else
    let blockReason := canFallAsleep cfg d
    let lastUsed := lastUsed0.getD now
    let idleMinutes := (now - lastUsed) / 60
    if blockReason ≠ "" then ⟨s, some now, pollInterval0, vs⟩
    else if idleMinutes < (cfg.suspendAfterIdleMin : ℚ) then ⟨s, lastUsed0, pollInterval0, vs⟩
    else if canTransition s .suspendEv then
      ⟨trigger s .suspendEv, lastUsed0, some cfg.suspendPollInterval, vs⟩
    else ⟨s, lastUsed0, pollInterval0, vs⟩

/-- Embeds `SuspendLogging` (manual API): result is the machine state and the
`pollIntervals[carID]` entry, or the typed error string. -/
def SuspendLogging (cfg : Config) (s : VState) (pollInterval0 : Option ℚ) :
    Except String (VState × Option ℚ) :=
  match s with
  | .asleep => .ok (s, pollInterval0)
  | .offline => .ok (s, pollInterval0)
  | .suspended => .ok (s, pollInterval0)
  | .driving => .error "cannot suspend: vehicle is driving"
  | .charging => .error "cannot suspend: vehicle is charging"
  | .updating => .error "cannot suspend: vehicle is updating"
  | .online =>
    if canTransition s .suspendEv then
      .ok (trigger s .suspendEv, some cfg.suspendPollInterval)
    else .error ("cannot suspend from state: " ++ stateName s)

/-- The result of `ResumeLogging`: machine state, `lastUsedTimes[carID]`,
`pollIntervals[carID]`. -/
structure ResumeOutcome where
  state : VState
  lastUsed : Option ℚ
  pollInterval : Option ℚ
deriving DecidableEq, Repr

/-- Embeds `ResumeLogging` (manual API).  The active states return early; only the
`suspended`/`asleep`/`offline` branches reach the epilogue that resets the
interval to `PollIntervalOnline` and bumps `lastUsedTimes[carID]`. -/
def ResumeLogging (cfg : Config) (now : ℚ) (s : VState)
    (lastUsed0 pollInterval0 : Option ℚ) : Except String ResumeOutcome :=
  match s with
  | .online => .ok ⟨s, lastUsed0, pollInterval0⟩
  | .driving => .ok ⟨s, lastUsed0, pollInterval0⟩
  | .charging => .ok ⟨s, lastUsed0, pollInterval0⟩
  | .updating => .ok ⟨s, lastUsed0, pollInterval0⟩
  | .suspended =>
    if canTransition s .resumeEv then
      .ok ⟨trigger s .resumeEv, some now, some cfg.pollIntervalOnline⟩
    else .error "cannot resume from suspended state"
  | .asleep => .ok ⟨s, some now, some cfg.pollIntervalOnline⟩
  | .offline => .ok ⟨s, some now, some cfg.pollIntervalOnline⟩

/-- Embeds `calculateBackoffInterval`: the next backoff interval read-only from the
current `pollIntervals[carID]` entry (`none` = absent). -/
def calculateBackoffInterval (cfg : Config) (cur : Option ℚ) : ℚ :=
  match cur with
  | none => cfg.pollBackoffInitial
  | some c =>
    if c < cfg.pollBackoffInitial then cfg.pollBackoffInitial
    else
      let n := c * cfg.pollBackoffFactor
      if n > cfg.pollBackoffMax then cfg.pollBackoffMax else n

/-- Embeds `applyBackoff`: same arithmetic but writes the map entry (applied on poll
errors regardless of machine state). -/
def applyBackoff (cfg : Config) (cur : Option ℚ) : ℚ :=
  let c := match cur with
    | none => cfg.pollBackoffInitial
    | some c => if c < cfg.pollBackoffInitial then cfg.pollBackoffInitial else c
  let n := c * cfg.pollBackoffFactor
  if n > cfg.pollBackoffMax then cfg.pollBackoffMax else n

/-- Embeds `updateNextPollTime`: the per-state interval table applied after every
poll attempt (the `default` arm covers `online`, `updating` and any unknown
state). -/
def updateNextPollTime (cfg : Config) (s : VState) (cur : Option ℚ) : ℚ :=
  match s with
  | .driving => cfg.pollIntervalDriving
  | .charging => cfg.pollIntervalCharging
  | .suspended => cfg.suspendPollInterval
  | .asleep => calculateBackoffInterval cfg cur
  | .offline => calculateBackoffInterval cfg cur
  | _ => cfg.pollIntervalOnline

/-- Embeds `triggerImmediatePoll`: writes zero to `pollIntervals[carID]` and clears
`lastPollTimes[carID]` so the next base tick polls at once. -/
def triggerImmediatePoll : ℚ × Option ℚ :=
  (0, none)

/-- Embeds `resetBackoff`: `pollIntervals[carID] ← PollBackoffInitial` on observed wake. -/
def resetBackoff (cfg : Config) : ℚ :=
  cfg.pollBackoffInitial

/-- Embeds `transitionToSleepOrOffline`: move to the target state via the matching
event when legal, else log and stay. -/
def transitionToSleepOrOffline (s : VState) (target : String) : VState :=
  if stateName s = target then s
  else
    let e := if target = "asleep" then VEvent.fallAsleep else VEvent.goOffline
    if canTransition s e then trigger s e else s

/-- Embeds `handleVehicleStateFromAPI`: drive the machine from the acquired `state`
field.  The boolean is true when the wake edge actually fired (that branch
also marks the vehicle active, resets the backoff and restarts streaming). -/
def handleVehicleStateFromAPI (s : VState) (apiState : String) : VState × Bool :=
  if apiState = "asleep" then (transitionToSleepOrOffline s "asleep", false)
  else if apiState = "offline" then (transitionToSleepOrOffline s "offline", false)
  else if apiState = "online" then
    if (s = VState.asleep ∨ s = VState.offline) ∧ canTransition s .wakeUp then
      (trigger s .wakeUp, true)
    else (s, false)
  else (s, false)

/-- Embeds `isDriving` detection of `handleStateTransitions`:
`data.DriveState != nil && data.DriveState.ShiftState != nil && *shift != "P"`. -/
def isDrivingData (d : VehicleData) : Bool :=
  match d.driveState with
  | some ds =>
    match ds.shiftState with
    | some sh => sh ≠ "P"
    | none => false
  | none => false

/-- Embeds `isCharging` detection: `data.ChargeState != nil && ChargingState == "Charging"`. -/
def isChargingData (d : VehicleData) : Bool :=
  match d.chargeState with
  | some cs => cs.chargingState = "Charging"
  | none => false

/-- Embeds `handleStateTransitions`: the drive check runs first, then the charge
check; both compare against the state read at entry (`currentState`), while
`CanTransition`/`Trigger` act on the live machine.  The boolean reports
whether `markVehicleActive` ran (a start edge fired). -/
def handleStateTransitions (s0 : VState) (d : VehicleData) : VState × Bool :=
  let isDr := isDrivingData d
  let r1 : VState × Bool :=
    if isDr ∧ s0 ≠ VState.driving then
      if canTransition s0 .startDriving then (trigger s0 .startDriving, true) else (s0, false)
    else if ¬ isDr ∧ s0 = VState.driving then (trigger s0 .stopDriving, false)
    else (s0, false)
  let r2 : VState × Bool :=
    if isChargingData d ∧ s0 ≠ VState.charging then
      if canTransition r1.1 .startCharging then (trigger r1.1 .startCharging, true) else (r1.1, false)
    else if ¬ isChargingData d ∧ s0 = VState.charging then (trigger r1.1 .stopCharging, false)
    else (r1.1, false)
  (r2.1, r1.2 || r2.2)

/-- Embeds `createPosition`: build a trajectory sample from the full data bundle.
Fields of absent sub-records keep the Go zero values; `DriveID` is never
assigned (stays nil). -/
def createPosition (carId : ℤ) (now : ℚ) (d : VehicleData) : Position :=
  let p : Position :=
    { carId := carId, driveId := none, latitude := 0, longitude := 0, heading := 0,
      speed := none, power := 0, odometer := 0, batteryLevel := 0, rangeKm := 0,
      insideTemp := none, outsideTemp := none, elevation := none,
      tpmsPressureFL := none, tpmsPressureFR := none, tpmsPressureRL := none,
      tpmsPressureRR := none, recordedAt := now }
  let p := match d.driveState with
    | some ds => { p with latitude := ds.latitude, longitude := ds.longitude,
                          heading := ds.heading, speed := ds.speed, power := ds.power }
    | none => p
  let p := match d.chargeState with
    | some cs => { p with batteryLevel := cs.batteryLevel,
                          rangeKm := MilesToKm cs.estBatteryRange }
    | none => p
  let p := match d.vehicleState with
    | some v => { p with odometer := MilesToKm v.odometer,
                         tpmsPressureFL := v.tpmsPressureFL,
                         tpmsPressureFR := v.tpmsPressureFR,
                         tpmsPressureRL := v.tpmsPressureRL,
                         tpmsPressureRR := v.tpmsPressureRR }
    | none => p
  match d.climateState with
  | some c => { p with insideTemp := some c.insideTemp, outsideTemp := some c.outsideTemp }
  | none => p

/-- Embeds `updateMachineFromData`: the poll-side snapshot refresh (the `UpdateState`
closure of `pollVehicle`). -/
def updateMachineFromData (vs : SnapshotState) (d : VehicleData) : SnapshotState :=
  let vs := match d.chargeState with
    | some cs =>
      { vs with batteryLevel := cs.batteryLevel,
                rangeKm := MilesToKm cs.estBatteryRange,
                pluggedIn := cs.chargingState ≠ "Disconnected",
                chargingState := cs.chargingState,
                chargerPower := cs.chargerPower,
                chargeLimitSoc := cs.chargeLimitSoc,
                timeToFullCharge := cs.timeToFullCharge,
                chargerVoltage := cs.chargerVoltage,
                chargerCurrent := cs.chargerActualCurrent,
                usableBatteryLevel := cs.usableBatteryLevel,
                idealRangeKm := MilesToKm cs.idealBatteryRange }
    | none => vs
  let vs := match d.driveState with
    | some ds =>
      { vs with latitude := ds.latitude, longitude := ds.longitude,
                speed := ds.speed, power := ds.power, heading := ds.heading }
    | none => vs
  let vs := match d.climateState with
    | some c =>
      { vs with insideTemp := some c.insideTemp, outsideTemp := some c.outsideTemp,
                isClimateOn := c.isClimateOn }
    | none => vs
  match d.vehicleState with
  | some v =>
    { vs with locked := v.locked, sentryMode := v.sentryMode,
              tpmsPressureFL := v.tpmsPressureFL, tpmsPressureFR := v.tpmsPressureFR,
              tpmsPressureRL := v.tpmsPressureRL, tpmsPressureRR := v.tpmsPressureRR,
              odometer := MilesToKm v.odometer, carVersion := v.carVersion,
              isUserPresent := v.isUserPresent,
              doorsOpen := anyDoorOpen v, windowsOpen := anyWindowOpen v,
              frunkOpen := v.frunkOpen ≠ 0, trunkOpen := v.trunkOpen ≠ 0 }
  | none => vs

/-- The two vendor endpoints the poll loop can hit. -/
inductive ApiCall where
  | getVehicle
  | getVehicleData
deriving DecidableEq, Repr

/-- Result of the full-data fetch: `ErrVehicleUnavailable`, another error, or
the bundle. -/
inductive FetchResult where
  | unavailable
  | failure
  | ok (d : VehicleData)
deriving DecidableEq, Repr

/-- Everything a poll of one vehicle touches: endpoints called (in order),
whether the poll returned an error, the machine state, the scheduler map
entries, the positions table, and the snapshot. -/
structure PollOutcome where
  calls : List ApiCall
  failed : Bool
  state : VState
  lastUsed : Option ℚ
  pollInterval : Option ℚ
  positions : List Position
  snapshot : SnapshotState
deriving DecidableEq, Repr

/-- Embeds `pollVehicle`: the full acquisition path — fetch, machine update from the
`state` field, snapshot refresh, position insert while online, drive/charge
transition handling, then the sleep gate when still online.
`ErrVehicleUnavailable` transitions toward asleep and reports success. -/
def pollVehicle (cfg : Config) (now : ℚ) (carId : ℤ) (s : VState) (fetch : FetchResult)
    (lastUsed0 pollInterval0 : Option ℚ) (posDb : List Position) (vs : SnapshotState) :
    PollOutcome :=
  match fetch with
  | .unavailable =>
    { calls := [.getVehicleData], failed := false,
      state := transitionToSleepOrOffline s "asleep",
      lastUsed := lastUsed0, pollInterval := pollInterval0,
      positions := posDb, snapshot := vs }
  | .failure =>
    { calls := [.getVehicleData], failed := true, state := s,
      lastUsed := lastUsed0, pollInterval := pollInterval0,
      positions := posDb, snapshot := vs }
  | .ok d =>
    let r := handleVehicleStateFromAPI s d.state
    let lastUsed1 := if r.2 then some now else lastUsed0
    let interval1 := if r.2 then some (resetBackoff cfg) else pollInterval0
    let vs1 := updateMachineFromData vs d
    let posDb1 :=
      if d.state = "online" ∧ d.driveState.isSome then posDb ++ [createPosition carId now d]
      else posDb
    let t := handleStateTransitions r.1 d
    let lastUsed2 := if t.2 then some now else lastUsed1
    if t.1 = VState.online then
      let g := tryToSuspend cfg now t.1 d lastUsed2 interval1 vs1
      { calls := [.getVehicleData], failed := false, state := g.state,
        lastUsed := g.lastUsed, pollInterval := g.pollInterval,
        positions := posDb1, snapshot := g.snapshot }
    else
      { calls := [.getVehicleData], failed := false, state := t.1,
        lastUsed := lastUsed2, pollInterval := interval1,
        positions := posDb1, snapshot := vs1 }

/-- Embeds `pollVehicleLightweight`: the cheap probe used in
suspended/asleep/offline — `GetVehicle` (state only, never wakes), then:
`online` promotes to `pollVehicle` in the same tick; `asleep`/`offline`
drive the machine (with the dedicated suspended → asleep/offline edges).
`probe = none` is a listing error. -/
def pollVehicleLightweight (cfg : Config) (now : ℚ) (carId : ℤ) (s : VState)
    (probe : Option String) (fetch : FetchResult)
    (lastUsed0 pollInterval0 : Option ℚ) (posDb : List Position) (vs : SnapshotState) :
    PollOutcome :=
  match probe with
  | none =>
    { calls := [.getVehicle], failed := true, state := s,
      lastUsed := lastUsed0, pollInterval := pollInterval0,
      positions := posDb, snapshot := vs }
  | some r =>
    if r = "online" then
      let o := pollVehicle cfg now carId s fetch lastUsed0 pollInterval0 posDb vs
      { o with calls := ApiCall.getVehicle :: o.calls }
    else if r = "asleep" then
      let s' :=
        if s = VState.suspended then
          if canTransition s .fallAsleep then trigger s .fallAsleep else s
        else if s ≠ VState.asleep then transitionToSleepOrOffline s "asleep"
        else s
      { calls := [.getVehicle], failed := false, state := s',
        lastUsed := lastUsed0, pollInterval := pollInterval0,
        positions := posDb, snapshot := vs }
    else if r = "offline" then
      let s' :=
        if s = VState.suspended then
          if canTransition s .goOffline then trigger s .goOffline else s
        else if s ≠ VState.offline then transitionToSleepOrOffline s "offline"
        else s
      { calls := [.getVehicle], failed := false, state := s',
        lastUsed := lastUsed0, pollInterval := pollInterval0,
        positions := posDb, snapshot := vs }
    else
      { calls := [.getVehicle], failed := false, state := s,
        lastUsed := lastUsed0, pollInterval := pollInterval0,
        positions := posDb, snapshot := vs }

/-- The dispatch of `pollAllVehiclesWithBackoff`: lightweight probe for
suspended/asleep/offline, full acquisition otherwise. -/
def dispatchPoll (cfg : Config) (now : ℚ) (carId : ℤ) (s : VState)
    (probe : Option String) (fetch : FetchResult)
    (lastUsed0 pollInterval0 : Option ℚ) (posDb : List Position) (vs : SnapshotState) :
    PollOutcome :=
  if s = VState.suspended ∨ s = VState.asleep ∨ s = VState.offline then
    pollVehicleLightweight cfg now carId s probe fetch lastUsed0 pollInterval0 posDb vs
  else
    pollVehicle cfg now carId s fetch lastUsed0 pollInterval0 posDb vs

/-- The interval recomputation at the end of each per-vehicle tick step:
on a poll error `applyBackoff` runs first, then `updateNextPollTime`
overwrites the entry from the post-poll machine state. -/
def tickNextInterval (cfg : Config) (postState : VState) (failed : Bool)
    (interval : Option ℚ) : ℚ :=
  updateNextPollTime cfg postState (if failed then some (applyBackoff cfg interval) else interval)

/-- One due vehicle processed by a tick of `pollAllVehiclesWithBackoff`:
the poll outcome plus the recomputed `pollIntervals[carID]` entry. -/
def pollTickVehicle (cfg : Config) (now : ℚ) (carId : ℤ) (s : VState)
    (probe : Option String) (fetch : FetchResult)
    (lastUsed0 pollInterval0 : Option ℚ) (posDb : List Position) (vs : SnapshotState) :
    PollOutcome × ℚ :=
  let o := dispatchPoll cfg now carId s probe fetch lastUsed0 pollInterval0 posDb vs
  (o, tickNextInterval cfg o.state o.failed o.pollInterval)

/-- The snapshot refresh of `handleStreamData` (its `UpdateState` closure):
zero/non-positive tuple fields leave the cached value alone, except `Power`
which is always overwritten. -/
def updateStateFromStream (vs : SnapshotState) (d : StreamData) : SnapshotState :=
  let vs := if d.soc > 0 then { vs with batteryLevel := d.soc } else vs
  let vs := if d.estLat ≠ 0 ∧ d.estLng ≠ 0 then
              { vs with latitude := d.estLat, longitude := d.estLng }
            else vs
  let vs := if d.speed > 0 then { vs with speed := some (MphToKmh d.speed) } else vs
  let vs := { vs with power := d.power }
  if d.heading > 0 then { vs with heading := d.heading } else vs

/-- The `pos := &models.Position{...}` literal of the streaming insert:
coordinates, heading, converted speed and power from the tuple, drive link. -/
def streamPosBase (carId : ℤ) (now : ℚ) (driveId : ℤ) (d : StreamData) : Position :=
  { carId := carId, driveId := some driveId,
    latitude := d.estLat, longitude := d.estLng, heading := d.heading,
    speed := some (MphToKmh d.speed), power := d.power,
    odometer := 0, batteryLevel := 0, rangeKm := 0,
    insideTemp := none, outsideTemp := none, elevation := none,
    tpmsPressureFL := none, tpmsPressureFR := none,
    tpmsPressureRL := none, tpmsPressureRR := none, recordedAt := now }

/-- Embeds `if data.SOC > 0 { pos.BatteryLevel = data.SOC }`. -/
def streamPosSoc (d : StreamData) (p : Position) : Position :=
  if d.soc > 0 then { p with batteryLevel := d.soc } else p

/-- Embeds `if data.Range > 0 { pos.RangeKm = MilesToKm(float64(data.Range)) }`. -/
def streamPosRange (d : StreamData) (p : Position) : Position :=
  if d.range > 0 then { p with rangeKm := MilesToKm (d.range : ℚ) } else p

/-- Embeds `if data.Odometer > 0 { pos.Odometer = MilesToKm(data.Odometer) }`. -/
def streamPosOdometer (d : StreamData) (p : Position) : Position :=
  if d.odometer > 0 then { p with odometer := MilesToKm d.odometer } else p

/-- Embeds `if data.Elevation > 0 { pos.Elevation = &elev }`. -/
def streamPosElevation (d : StreamData) (p : Position) : Position :=
  if d.elevation > 0 then { p with elevation := some d.elevation } else p

/-- Gap fill: `if pos.BatteryLevel == 0 { pos.BatteryLevel = cached.BatteryLevel }`. -/
def fillBattery (cached : SnapshotState) (p : Position) : Position :=
  if p.batteryLevel = 0 then { p with batteryLevel := cached.batteryLevel } else p

/-- Gap fill for `RangeKm`. -/
def fillRange (cached : SnapshotState) (p : Position) : Position :=
  if p.rangeKm = 0 then { p with rangeKm := cached.rangeKm } else p

/-- Gap fill for `Odometer`. -/
def fillOdometer (cached : SnapshotState) (p : Position) : Position :=
  if p.odometer = 0 then { p with odometer := cached.odometer } else p

/-- Gap fill for `Heading`. -/
def fillHeading (cached : SnapshotState) (p : Position) : Position :=
  if p.heading = 0 then { p with heading := cached.heading } else p

/-- Gap fill for `InsideTemp`. -/
def fillInsideTemp (cached : SnapshotState) (p : Position) : Position :=
  if p.insideTemp = none then { p with insideTemp := cached.insideTemp } else p

/-- Gap fill for `OutsideTemp`. -/
def fillOutsideTemp (cached : SnapshotState) (p : Position) : Position :=
  if p.outsideTemp = none then { p with outsideTemp := cached.outsideTemp } else p

/-- The high-frequency trajectory insert of `handleStreamData`: while the
machine is driving and the tuple carries a nonzero lat/lng, synthesize a
`Position` linked to the active drive (none inserted when no drive row is
open yet), applying the tuple fields then gap-filling zero fields from the
cached snapshot, in statement order. -/
def streamPersistPosition (carId : ℤ) (now : ℚ) (s : VState) (d : StreamData)
    (activeDrive : Option Drive) (cached : SnapshotState) : Option Position :=
  if s = VState.driving ∧ d.estLat ≠ 0 ∧ d.estLng ≠ 0 then
    match activeDrive with
    | none => none
    | some drv =>
      some (fillOutsideTemp cached (fillInsideTemp cached (fillHeading cached
        (fillOdometer cached (fillRange cached (fillBattery cached
          (streamPosElevation d (streamPosOdometer d (streamPosRange d
            (streamPosSoc d (streamPosBase carId now drv.id d)))))))))))
  else none

/-- What one streaming tuple leaves behind for its vehicle. -/
structure StreamOutcome where
  state : VState
  lastUsed : Option ℚ
  pollInterval : Option ℚ
  lastPollCleared : Bool
  snapshot : SnapshotState
  created : Option Position
deriving DecidableEq, Repr

/-- Embeds `handleStreamData` (service side): shift D/N/R forces resume +
start_driving and an immediate poll; negative power forces resume +
start_charging and an immediate poll; positive power just marks activity
(resuming if suspended); otherwise the tuple refreshes the snapshot and,
while driving, persists a trajectory position. -/
def handleStreamData (now : ℚ) (carId : ℤ) (s : VState) (d : StreamData)
    (lastUsed0 pollInterval0 : Option ℚ) (vs : SnapshotState)
    (activeDrive : Option Drive) : StreamOutcome :=
  if d.shiftState = "D" ∨ d.shiftState = "N" ∨ d.shiftState = "R" then
    let s1 := if s = VState.suspended ∧ canTransition s .resumeEv then trigger s .resumeEv else s
    let s2 := if canTransition s1 .startDriving then trigger s1 .startDriving else s1
    { state := s2, lastUsed := some now,
      pollInterval := some triggerImmediatePoll.1, lastPollCleared := true,
      snapshot := vs, created := none }
  else if d.power < 0 then
    let s1 := if s = VState.suspended ∧ canTransition s .resumeEv then trigger s .resumeEv else s
    let s2 := if canTransition s1 .startCharging then trigger s1 .startCharging else s1
    { state := s2, lastUsed := some now,
      pollInterval := some triggerImmediatePoll.1, lastPollCleared := true,
      snapshot := vs, created := none }
  else
    let lastUsed := if d.power > 0 then some now else lastUsed0
    let s1 := if d.power > 0 ∧ s = VState.suspended ∧ canTransition s .resumeEv then
                trigger s .resumeEv
              else s
    let vs1 := updateStateFromStream vs d
    { state := s1, lastUsed := lastUsed,
      pollInterval := pollInterval0, lastPollCleared := false,
      snapshot := vs1,
      created := streamPersistPosition carId now s d activeDrive vs1 }

/-- Embeds `ParkingRepository.ForceCloseOpenParkings`: close every open parking row
of the car, setting `end_time` and the elapsed duration in minutes. -/
def ForceCloseOpenParkings (carId : ℤ) (endTime : ℚ) (db : List Parking) : List Parking :=
  db.map fun p =>
    if p.carId = carId ∧ p.endTime = none then
      { p with endTime := some endTime, durationMin := (endTime - p.startTime) / 60 }
    else p

/-- The `parking := &models.Parking{CarID, StartTime}` literal of
`startParking` (Go zero values elsewhere; `end_time` null = open). -/
def parkBase (now : ℚ) (freshId carId : ℤ) : Parking :=
  { id := freshId, carId := carId, startTime := now, endTime := none, durationMin := 0,
    latitude := 0, longitude := 0,
    startBatteryLevel := 0, startRangeKm := 0, startOdometer := 0,
    startLocked := false, startSentryMode := false, startIsUserPresent := false,
    startDoorsOpen := false, startWindowsOpen := false,
    startFrunkOpen := false, startTrunkOpen := false,
    startTpmsPressureFL := none, startTpmsPressureFR := none,
    startTpmsPressureRL := none, startTpmsPressureRR := none,
    carVersion := "", startInsideTemp := none, startOutsideTemp := none,
    startIsClimateOn := false }

/-- Embeds `if data.DriveState != nil { parking.Latitude/Longitude = ... }`. -/
def parkFromDriveState (d : VehicleData) (p : Parking) : Parking :=
  match d.driveState with
  | some ds => { p with latitude := ds.latitude, longitude := ds.longitude }
  | none => p

/-- Embeds `if data.ChargeState != nil { start battery level / range }`. -/
def parkFromChargeState (d : VehicleData) (p : Parking) : Parking :=
  match d.chargeState with
  | some cs => { p with startBatteryLevel := cs.batteryLevel,
                        startRangeKm := MilesToKm cs.estBatteryRange }
  | none => p

/-- Embeds `if data.VehicleState != nil { odometer, flags, TPMS, version }`. -/
def parkFromBodyState (d : VehicleData) (p : Parking) : Parking :=
  match d.vehicleState with
  | some v =>
    { p with startOdometer := MilesToKm v.odometer,
             startLocked := v.locked, startSentryMode := v.sentryMode,
             startIsUserPresent := v.isUserPresent,
             startDoorsOpen := anyDoorOpen v, startWindowsOpen := anyWindowOpen v,
             startFrunkOpen := v.frunkOpen ≠ 0, startTrunkOpen := v.trunkOpen ≠ 0,
             startTpmsPressureFL := v.tpmsPressureFL,
             startTpmsPressureFR := v.tpmsPressureFR,
             startTpmsPressureRL := v.tpmsPressureRL,
             startTpmsPressureRR := v.tpmsPressureRR,
             carVersion := v.carVersion }
  | none => p

/-- Embeds `if data.ClimateState != nil { start temps, climate flag }`. -/
def parkFromClimateState (d : VehicleData) (p : Parking) : Parking :=
  match d.climateState with
  | some c => { p with startInsideTemp := some c.insideTemp,
                       startOutsideTemp := some c.outsideTemp,
                       startIsClimateOn := c.isClimateOn }
  | none => p

/-- The row `startParking` inserts, its start-side field groups applied in
statement order. -/
def startParkingRow (now : ℚ) (freshId carId : ℤ) (d : VehicleData) : Parking :=
  parkFromClimateState d (parkFromBodyState d (parkFromChargeState d
    (parkFromDriveState d (parkBase now freshId carId))))

/-- Embeds `startParking`: force-close any orphan open parking for the car, then
insert a new open row whose start-side fields come from the causing snapshot
(absent sub-records leave Go zero values). -/
def startParking (now : ℚ) (freshId carId : ℤ) (d : VehicleData) (db : List Parking) :
    List Parking :=
  ForceCloseOpenParkings carId now db ++ [startParkingRow now freshId carId d]

/-- Modelled from the spec: the transition-dispatcher revision that wires the
parking segmenter into the poll path is not among the source files — the
`handleStateTransitions` present in `vehicle.go` predates the parking
feature, and the `VehicleService` fields that `startParking` relies on
(`parkingRepo`, the parking accumulators, `geocoder`) do not exist in that
older file, so its parking-aware caller is missing.  Per the spec:
"`stop_driving`: {driving} → online (segmenter opens a Parking here)" and
"**Parking** — opened on every transition *out of* Driving": on an actual
stop_driving transition the dispatcher fires the machine event and calls
`startParking` (embedded above from the source) with the poll snapshot that
caused the transition. -/
def processStopDriving (now : ℚ) (freshId carId : ℤ) (s : VState) (d : VehicleData)
    (db : List Parking) : VState × List Parking :=
  if s = VState.driving ∧ ¬ isDrivingData d then
    (trigger s .stopDriving, startParking now freshId carId d db)
  else (s, db)

/-- A fan-out consumer: the pending buffer of its channel. -/
structure Consumer where
  buf : List ℤ
deriving DecidableEq, Repr

/-- Capacity of a WebSocket client's `send` channel (`NewClient`). -/
def hubSendCap : ℕ := 256

/-- Capacity of an internal subscriber channel (`Subscribe`). -/
def subscriberCap : ℕ := 10

/-- The broadcast arm of `Hub.Run`: deliver to each client with room; a
client whose buffer is full is closed and removed from the client set. -/
def hubBroadcastStep (clients : List Consumer) (m : ℤ) : List Consumer :=
  clients.filterMap fun c =>
    if c.buf.length < hubSendCap then some { c with buf := c.buf ++ [m] } else none

/-- Embeds `notifySubscribers`: non-blocking send to each internal subscriber; a
full buffer just skips this message and keeps the subscriber. -/
def notifySubscribers (subs : List Consumer) (m : ℤ) : List Consumer :=
  subs.map fun c =>
    if c.buf.length < subscriberCap then { c with buf := c.buf ++ [m] } else c

/-- Embeds `strings.Contains(value, "offline")`. -/
def containsSubstring (pat s : String) : Bool :=
  decide (pat.toList <:+: s.toList)

/-- An inbound streaming message as classified by `handleMessage`. -/
structure StreamMsg where
  msgType : String
  errorType : String
  value : String
deriving DecidableEq, Repr

/-- The StreamClient's mutable flags and reconnect delay. -/
structure ClientState where
  connected : Bool
  vehicleOffline : Bool
  currentDelay : ℚ
deriving DecidableEq, Repr

/-- Embeds `NewStreamingClient`: reconnect delay starts at 1 s. -/
def newClientState : ClientState :=
  { connected := false, vehicleOffline := false, currentDelay := 1 }

/-- Embeds `maxReconnectDelay` (30 s). -/
def maxReconnectDelay : ℚ := 30

/-- Embeds `reconnectDelay` (the reset value, 1 s). -/
def reconnectDelayInitial : ℚ := 1

/-- Externally visible effects of handling one message. -/
inductive ClientAction where
  | onData
  | onVehicleOffline
  | reconnectRequest
deriving DecidableEq, Repr

/-- Embeds `StreamingClient.handleMessage`: `data:update` delivers; `data:error`
with `vehicle_error` whose payload contains "offline" marks the client
vehicle-offline and emits the offline notice without requesting a reconnect;
other `vehicle_error`/`vehicle_disconnected` errors request a reconnect;
`control:hello` and unknown types are no-ops. -/
def handleMessage (c : ClientState) (m : StreamMsg) : ClientState × List ClientAction :=
  if m.msgType = "data:update" then (c, [.onData])
  else if m.msgType = "data:error" then
    if m.errorType = "vehicle_error" ∧ containsSubstring "offline" m.value then
      ({ c with vehicleOffline := true }, [.onVehicleOffline])
    else if m.errorType = "vehicle_disconnected" ∨ m.errorType = "vehicle_error" then
      (c, [.reconnectRequest])
    else (c, [])
  else (c, [])

/-- One pass through the body of the `StartWithReconnect` loop, seen from the
outside: either the dial fails, or a session runs until the reconnect signal
arrives (`offline` records whether the vehicle-offline flag was set by the
reader during the session). -/
inductive LoopInput where
  | connectFail
  | sessionThenDrop (offline : Bool)
deriving DecidableEq, Repr

/-- Observable result of one loop iteration. -/
structure LoopStep where
  state : ClientState
  connectAttempted : Bool
  waited : Option ℚ
  continues : Bool
deriving DecidableEq, Repr

/-- One iteration of the reconnect loop: a flagged (vehicle-offline) client
exits without dialing; a failed dial waits `currentDelay` and doubles it
clamped at `maxReconnectDelay`; a successful dial resets the delay to 1 s
(`Connect` does so) and, when the session ends because the vehicle went
offline, closes and exits. -/
def loopIter (c : ClientState) (i : LoopInput) : LoopStep :=
  if c.vehicleOffline then
    { state := c, connectAttempted := false, waited := none, continues := false }
  else
    match i with
    | .connectFail =>
      let waited := c.currentDelay
      let d := c.currentDelay * 2
      let d := if d > maxReconnectDelay then maxReconnectDelay else d
      { state := { c with currentDelay := d }, connectAttempted := true,
        waited := some waited, continues := true }
    | .sessionThenDrop offline =>
      let c1 := { c with connected := false, currentDelay := reconnectDelayInitial,
                         vehicleOffline := offline }
      { state := c1, connectAttempted := true, waited := none, continues := ¬ offline }

/-- Run the reconnect loop over a list of iterations, counting dial attempts. -/
def runLoop : ClientState → List LoopInput → ClientState × ℕ
  | c, [] => (c, 0)
  | c, i :: rest =>
    let st := loopIter c i
    if st.continues then
      let r := runLoop st.state rest
      (r.1, (if st.connectAttempted then 1 else 0) + r.2)
    else (st.state, if st.connectAttempted then 1 else 0)

/-- Embeds `ResetAndRestart`: the external reset — clear the vehicle-offline flag,
reset the delay, and rejoin the reconnect loop. -/
def resetAndRestart (c : ClientState) : ClientState :=
  { c with vehicleOffline := false, currentDelay := reconnectDelayInitial }

/-- The `ORDER BY recorded_at` ordering on trajectory samples. -/
def posLe (a b : Position) : Prop :=
  a.recordedAt ≤ b.recordedAt

instance : DecidableRel posLe :=
  fun a b => inferInstanceAs (Decidable (a.recordedAt ≤ b.recordedAt))

instance : IsTotal Position posLe :=
  ⟨fun a b => le_total a.recordedAt b.recordedAt⟩

instance : IsTrans Position posLe :=
  ⟨fun _ _ _ hab hbc => le_trans hab hbc⟩

/-- Positions of a drive in trajectory order (`ORDER BY recorded_at`). -/
def sortByRecordedAt (ps : List Position) : List Position :=
  ps.insertionSort posLe

/-- The consecutive pairs the SQL window `LEAD(recorded_at) OVER (ORDER BY
recorded_at)` produces (the last row, whose lead is NULL, yields no pair). -/
def consecutivePairs (ps : List Position) : List (Position × Position) :=
  ps.zip ps.tail

/-- One summand of the energy-used aggregate:
`CASE WHEN power > 0 THEN power * interval_seconds / 3600.0 ELSE 0 END`,
with pairs at `interval_seconds ≥ 60` discarded. -/
def energyUsedTerm (a b : Position) : ℚ :=
  if b.recordedAt - a.recordedAt < 60 then
    if a.power > 0 then (a.power : ℚ) * (b.recordedAt - a.recordedAt) / 3600 else 0
  else 0

/-- One summand of the energy-regen aggregate:
`CASE WHEN power < 0 THEN ABS(power) * interval_seconds / 3600.0 ELSE 0 END`. -/
def energyRegenTerm (a b : Position) : ℚ :=
  if b.recordedAt - a.recordedAt < 60 then
    if a.power < 0 then |(a.power : ℚ)| * (b.recordedAt - a.recordedAt) / 3600 else 0
  else 0

/-- The energy-used sum of the `GetDriveStats` energy query. -/
def energyUsedSum (ps : List Position) : ℚ :=
  ((consecutivePairs (sortByRecordedAt ps)).map fun ab => energyUsedTerm ab.1 ab.2).sum

/-- The energy-regen sum of the `GetDriveStats` energy query. -/
def energyRegenSum (ps : List Position) : ℚ :=
  ((consecutivePairs (sortByRecordedAt ps)).map fun ab => energyRegenTerm ab.1 ab.2).sum

/-- The energy aggregation of `GetDriveStats` over a drive trajectory: the
query's two sums, stored into the stats record only when strictly positive
(`if energyUsed > 0 { stats.EnergyUsedKwh = &energyUsed }`), else left nil. -/
def GetDriveStatsEnergy (ps : List Position) : Option ℚ × Option ℚ :=
  (if energyUsedSum ps > 0 then some (energyUsedSum ps) else none,
   if energyRegenSum ps > 0 then some (energyRegenSum ps) else none)

/-- The spec's formula, verbatim: `Σ max(0, p_i.power) × Δt_i / 3600` over
consecutive pairs with Δt below 60 s. -/
def specEnergyUsed (ps : List Position) : ℚ :=
  ((consecutivePairs (sortByRecordedAt ps)).map fun ab =>
    if ab.2.recordedAt - ab.1.recordedAt < 60 then
      max 0 (ab.1.power : ℚ) * (ab.2.recordedAt - ab.1.recordedAt) / 3600
    else 0).sum

/-- The spec's formula for regen: `Σ max(0, −p_i.power) × Δt_i / 3600`. -/
def specEnergyRegen (ps : List Position) : ℚ :=
  ((consecutivePairs (sortByRecordedAt ps)).map fun ab =>
    if ab.2.recordedAt - ab.1.recordedAt < 60 then
      max 0 (-(ab.1.power : ℚ)) * (ab.2.recordedAt - ab.1.recordedAt) / 3600
    else 0).sum

/-! ### Concrete sample data used by witnesses and counterexamples -/

/-- A zero-initialised in-memory snapshot (Go zero values). -/
def snap0 : SnapshotState :=
  { carID := 1, currentState := "online", since := 0, lastUsed := 0,
    batteryLevel := 0, rangeKm := 0, latitude := 0, longitude := 0,
    speed := none, power := 0, insideTemp := none, outsideTemp := none,
    locked := false, sentryMode := false, pluggedIn := false,
    chargingState := "", chargerPower := 0,
    tpmsPressureFL := none, tpmsPressureFR := none,
    tpmsPressureRL := none, tpmsPressureRR := none,
    odometer := 0, carVersion := "", heading := 0,
    doorsOpen := false, windowsOpen := false, frunkOpen := false,
    trunkOpen := false, isUserPresent := false, isClimateOn := false,
    chargeLimitSoc := 0, timeToFullCharge := 0, chargerVoltage := 0,
    chargerCurrent := 0, usableBatteryLevel := 0, idealRangeKm := 0 }

/-- A car body with sentry mode on and everything else closed and idle. -/
def bodySentry : BodyState :=
  { odometer := 0, locked := true, sentryMode := true, softwareUpdate := none,
    driverDoorOpen := 0, passengerDoorOpen := 0, driverRearDoorOpen := 0,
    passengerRearDoorOpen := 0, frunkOpen := 0, trunkOpen := 0,
    driverWindowOpen := 0, passengerWindowOpen := 0, driverRearWindowOpen := 0,
    passengerRearWindowOpen := 0, isUserPresent := false, carVersion := "2024.8.7",
    tpmsPressureFL := none, tpmsPressureFR := none,
    tpmsPressureRL := none, tpmsPressureRR := none }

/-- The S4 scenario snapshot: online, sentry on, otherwise idle. -/
def dataSentry : VehicleData :=
  { state := "online", chargeState := none, climateState := none,
    driveState := none, vehicleState := some bodySentry }

/-- A driving snapshot: online, shift D, with charge and drive sub-records. -/
def dataDriving : VehicleData :=
  { state := "online",
    chargeState := some
      { batteryLevel := 80, usableBatteryLevel := 78, estBatteryRange := 217,
        idealBatteryRange := 230, chargeLimitSoc := 90, chargingState := "Disconnected",
        chargerPower := 0, chargerVoltage := 0, chargerActualCurrent := 0,
        chargeEnergyAdded := 0, timeToFullCharge := 0 },
    climateState := none,
    driveState := some
      { latitude := 30, longitude := 120, heading := 90,
        speed := some 30, power := 25, shiftState := some "D" },
    vehicleState := none }

/-- A parked snapshot: online, shift P, with charge, drive and body records. -/
def dataParked : VehicleData :=
  { state := "online",
    chargeState := some
      { batteryLevel := 71, usableBatteryLevel := 70, estBatteryRange := 200,
        idealBatteryRange := 210, chargeLimitSoc := 90, chargingState := "Disconnected",
        chargerPower := 0, chargerVoltage := 0, chargerActualCurrent := 0,
        chargeEnergyAdded := 0, timeToFullCharge := 0 },
    climateState := none,
    driveState := some
      { latitude := 31, longitude := 121, heading := 180,
        speed := none, power := 0, shiftState := some "P" },
    vehicleState := some bodySentry }

/-- A streaming tuple in drive (nonzero coordinates, positive power). -/
def tupleDriving : StreamData :=
  { timestamp := 1700000000000, speed := 30, odometer := 12300, soc := 80,
    elevation := 8, estHeading := 90, estLat := 30, estLng := 120,
    power := 25, shiftState := "D", range := 350, estRange := 340, heading := 90 }

/-- An open drive row. -/
def openDriveEx : Drive :=
  { id := 1, carId := 1, startTime := 0, endTime := none,
    startBatteryLevel := 80, startRangeKm := 349, startOdometerKm := 19795 }

/-! ### C10 — frame effect of stream-tuple ingestion into the cached state -/

/-- C10: when a stream tuple is ingested into the cached VehicleState, a
non-positive SOC, a zero latitude/longitude pair, a non-positive speed and a
non-positive heading each leave the corresponding cached field unchanged,
while `Power` is always overwritten with the tuple's power (zero included). -/
theorem stream_ingest_frame_effect (vs : SnapshotState) (d : StreamData) :
    (d.soc ≤ 0 → (updateStateFromStream vs d).batteryLevel = vs.batteryLevel) ∧
    (d.estLat = 0 ∧ d.estLng = 0 →
      (updateStateFromStream vs d).latitude = vs.latitude ∧
      (updateStateFromStream vs d).longitude = vs.longitude) ∧
    (d.speed ≤ 0 → (updateStateFromStream vs d).speed = vs.speed) ∧
    (d.heading ≤ 0 → (updateStateFromStream vs d).heading = vs.heading) ∧
    (updateStateFromStream vs d).power = d.power := by
  refine ⟨?_, ?_, ?_, ?_, ?_⟩ <;>
    · intros
      simp only [updateStateFromStream]
      split_ifs <;> simp_all <;> linarith

/-- Witness for C10 at a concrete idle tuple. -/
theorem stream_ingest_frame_effect_witness :
    ((0 : ℤ) ≤ 0) ∧
    (updateStateFromStream snap0
      { timestamp := 0, speed := 0, odometer := 0, soc := 0, elevation := 0,
        estHeading := 0, estLat := 0, estLng := 0, power := 0, shiftState := "",
        range := 0, estRange := 0, heading := 0 }).batteryLevel = snap0.batteryLevel :=
  ⟨le_refl 0,
    (stream_ingest_frame_effect snap0
      { timestamp := 0, speed := 0, odometer := 0, soc := 0, elevation := 0,
        estHeading := 0, estLat := 0, estLng := 0, power := 0, shiftState := "",
        range := 0, estRange := 0, heading := 0 }).1 (le_refl 0)⟩

/-! ### C3 — the sleep-gate block path -/

/-- C3 (amended): whenever the sleep gate computes a non-empty block reason
while the machine is online, `suspend` is not fired, the idle timer is reset
(`lastUsedTimes[carID] ← now`), the interval entry is untouched, and the
in-memory VehicleState snapshot is left completely unchanged — the reason is
only logged; the snapshot has no sleep-reason field to record it in. -/
theorem sleep_gate_block (cfg : Config) (now : ℚ) (d : VehicleData)
    (lastUsed0 pollInterval0 : Option ℚ) (vs : SnapshotState)
    (hb : canFallAsleep cfg d ≠ "") :
    tryToSuspend cfg now .online d lastUsed0 pollInterval0 vs
      = ⟨.online, some now, pollInterval0, vs⟩ := by
  simp [tryToSuspend, hb]

/-- Counterexample to C3 as stated: the S4 scenario (defaults, online,
`last_active = now − 16 min`, sentry on).  Suspend is indeed not fired and
the idle timer is reset — but the whole outcome, snapshot included, is
`⟨online, some now, unchanged interval, unchanged snapshot⟩`: nothing is
recorded in the VehicleState, which moreover has no sleep-reason field. -/
theorem sleep_gate_block_counterexample :
    tryToSuspend defaultConfig 960 .online dataSentry (some 0) none snap0
        = ⟨.online, some 960, none, snap0⟩ ∧
      canFallAsleep defaultConfig dataSentry = "sentry_mode" ∧
      ((960 : ℚ) - 0) / 60 = 16 ∧ defaultConfig.suspendAfterIdleMin = 15 := by
  refine ⟨?_, by decide, by norm_num, by decide⟩
  decide

/-- Witness for the amended C3 theorem at the S4 inputs. -/
theorem sleep_gate_block_witness :
    canFallAsleep defaultConfig dataSentry ≠ "" ∧
    tryToSuspend defaultConfig 960 .online dataSentry (some 0) none snap0
      = ⟨.online, some 960, none, snap0⟩ :=
  ⟨by decide, sleep_gate_block defaultConfig 960 dataSentry (some 0) none snap0 (by decide)⟩

/-! ### C6 — manual suspend/resume API -/

/-- C6 (amended): `SuspendLogging` returns a typed error exactly from
driving/charging/updating, succeeds without any change from
suspended/asleep/offline, and fires `suspend` (setting the suspended poll
interval) from online.  `ResumeLogging` fires `resume` exactly from
suspended; it bumps `last_active` and resets the interval to the online
interval only in the suspended/asleep/offline branches — the active states
return success having changed nothing. -/
theorem manual_suspend_resume (cfg : Config) (now : ℚ) (lu i : Option ℚ) :
    SuspendLogging cfg .driving i = .error "cannot suspend: vehicle is driving" ∧
    SuspendLogging cfg .charging i = .error "cannot suspend: vehicle is charging" ∧
    SuspendLogging cfg .updating i = .error "cannot suspend: vehicle is updating" ∧
    SuspendLogging cfg .suspended i = .ok (.suspended, i) ∧
    SuspendLogging cfg .asleep i = .ok (.asleep, i) ∧
    SuspendLogging cfg .offline i = .ok (.offline, i) ∧
    SuspendLogging cfg .online i = .ok (.suspended, some cfg.suspendPollInterval) ∧
    ResumeLogging cfg now .suspended lu i = .ok ⟨.online, some now, some cfg.pollIntervalOnline⟩ ∧
    ResumeLogging cfg now .asleep lu i = .ok ⟨.asleep, some now, some cfg.pollIntervalOnline⟩ ∧
    ResumeLogging cfg now .offline lu i = .ok ⟨.offline, some now, some cfg.pollIntervalOnline⟩ ∧
    ResumeLogging cfg now .online lu i = .ok ⟨.online, lu, i⟩ ∧
    ResumeLogging cfg now .driving lu i = .ok ⟨.driving, lu, i⟩ ∧
    ResumeLogging cfg now .charging lu i = .ok ⟨.charging, lu, i⟩ ∧
    ResumeLogging cfg now .updating lu i = .ok ⟨.updating, lu, i⟩ :=
  ⟨rfl, rfl, rfl, rfl, rfl, rfl, rfl, rfl, rfl, rfl, rfl, rfl, rfl, rfl⟩

/-- Counterexample to C6 as stated: `resume` called while the machine is
online returns success but does not bump `last_active` (stays 0, not the
current 100) and does not reset the interval — the active-state branches
return before the epilogue that does both. -/
theorem manual_resume_online_counterexample :
    ResumeLogging defaultConfig 100 .online (some 0) (some 3)
        = .ok ⟨.online, some 0, some 3⟩ ∧
      some (0 : ℚ) ≠ some (100 : ℚ) ∧
      some (3 : ℚ) ≠ some defaultConfig.pollIntervalOnline := by
  refine ⟨rfl, by decide, by decide⟩

/-! ### C4 — scheduler interval bounds -/

/-- The embedded `calculateBackoffInterval` stays within `[initial, max]` whenever the
factor is at least 1 and the bounds are ordered. -/
lemma calculateBackoffInterval_bounds (cfg : Config) (cur : Option ℚ)
    (hfac : 1 ≤ cfg.pollBackoffFactor) (hinit : 0 < cfg.pollBackoffInitial)
    (hord : cfg.pollBackoffInitial ≤ cfg.pollBackoffMax) :
    cfg.pollBackoffInitial ≤ calculateBackoffInterval cfg cur ∧
      calculateBackoffInterval cfg cur ≤ cfg.pollBackoffMax := by
  cases cur with
  | none => exact ⟨le_refl _, hord⟩
  | some c =>
    simp only [calculateBackoffInterval]
    split_ifs with h1 h2
    · exact ⟨le_refl _, hord⟩
    · exact ⟨hord, le_refl _⟩
    · push_neg at h1 h2
      refine ⟨?_, h2⟩
      calc cfg.pollBackoffInitial ≤ c := h1
        _ = c * 1 := (mul_one c).symm
        _ ≤ c * cfg.pollBackoffFactor := by
            have hc : 0 ≤ c := le_trans (le_of_lt hinit) h1
            exact mul_le_mul_of_nonneg_left hfac hc

/-- C4: after a tick's interval recomputation, a vehicle left asleep or
offline gets an interval within `[POLL_BACKOFF_INITIAL, POLL_BACKOFF_MAX]`
(poll error or not), and every other state gets its configured constant
(driving/charging/suspended constants; online and updating the online
interval).  An immediate-poll request is the separate write of zero —
`triggerImmediatePoll` — which also clears the last-poll time. -/
theorem tick_interval_bounds (cfg : Config) (s : VState) (cur : Option ℚ) (failed : Bool)
    (hfac : 1 ≤ cfg.pollBackoffFactor) (hinit : 0 < cfg.pollBackoffInitial)
    (hord : cfg.pollBackoffInitial ≤ cfg.pollBackoffMax) :
    ((s = VState.asleep ∨ s = VState.offline) →
      cfg.pollBackoffInitial ≤ tickNextInterval cfg s failed cur ∧
        tickNextInterval cfg s failed cur ≤ cfg.pollBackoffMax) ∧
    (s = VState.driving → tickNextInterval cfg s failed cur = cfg.pollIntervalDriving) ∧
    (s = VState.charging → tickNextInterval cfg s failed cur = cfg.pollIntervalCharging) ∧
    (s = VState.suspended → tickNextInterval cfg s failed cur = cfg.suspendPollInterval) ∧
    ((s = VState.online ∨ s = VState.updating) →
      tickNextInterval cfg s failed cur = cfg.pollIntervalOnline) ∧
    triggerImmediatePoll = (0, none) := by
  refine ⟨?_, ?_, ?_, ?_, ?_, rfl⟩
  · rintro (rfl | rfl) <;>
      exact calculateBackoffInterval_bounds cfg _ hfac hinit hord
  · rintro rfl; rfl
  · rintro rfl; rfl
  · rintro rfl; rfl
  · rintro (rfl | rfl) <;> rfl

/-- Witness for C4 with the default configuration, an asleep vehicle, a
failed poll and a mid-range previous interval. -/
theorem tick_interval_bounds_witness :
    defaultConfig.pollBackoffInitial ≤ tickNextInterval defaultConfig .asleep true (some 7) ∧
      tickNextInterval defaultConfig .asleep true (some 7) ≤ defaultConfig.pollBackoffMax :=
  (tick_interval_bounds defaultConfig .asleep (some 7) true
      (by norm_num [defaultConfig]) (by norm_num [defaultConfig])
      (by norm_num [defaultConfig])).1 (Or.inl rfl)

/-! ### C8 — fan-out on a full subscriber buffer -/

/-- A hub client with a full send buffer. -/
def fullClient : Consumer :=
  ⟨List.replicate hubSendCap 0⟩

/-- Counterexample to C8 as stated: a broadcast that finds a WebSocket
client's buffer full does not merely drop the message — `Hub.Run` closes the
channel and deletes the client, so the subscription does not survive and the
client receives no subsequent snapshots. -/
theorem hub_drop_counterexample :
    hubBroadcastStep [fullClient] 7 = [] ∧ fullClient.buf.length = hubSendCap := by
  constructor
  · simp [hubBroadcastStep, fullClient]
  · simp [fullClient]

/-- C8 (amended): the internal event-bus subscribers (`notifySubscribers`)
get slow-consumer-drop semantics — the subscriber count is preserved, a full
subscriber just misses this one message, a subscriber with room receives it;
the WebSocket hub (`Hub.Run`) instead keeps exactly the clients with buffer
room, delivering to them, and removes the full ones. -/
theorem fanout_slow_consumer (subs clients : List Consumer) (m : ℤ) (c : Consumer) :
    (notifySubscribers subs m).length = subs.length ∧
    (c ∈ subs → subscriberCap ≤ c.buf.length → c ∈ notifySubscribers subs m) ∧
    (c ∈ subs → c.buf.length < subscriberCap → (⟨c.buf ++ [m]⟩ : Consumer) ∈ notifySubscribers subs m) ∧
    hubBroadcastStep clients m
      = (clients.filter fun x => x.buf.length < hubSendCap).map fun x => ⟨x.buf ++ [m]⟩ := by
  refine ⟨by simp [notifySubscribers], ?_, ?_, ?_⟩
  · intro hc hfull
    have : (if c.buf.length < subscriberCap then (⟨c.buf ++ [m]⟩ : Consumer) else c) = c := by
      rw [if_neg (not_lt.mpr hfull)]
    exact this ▸ List.mem_map_of_mem _ hc
  · intro hc hroom
    have : (if c.buf.length < subscriberCap then (⟨c.buf ++ [m]⟩ : Consumer) else c)
        = ⟨c.buf ++ [m]⟩ := if_pos hroom
    exact this ▸ List.mem_map_of_mem _ hc
  · induction clients with
    | nil => rfl
    | cons x xs ih =>
      by_cases hx : x.buf.length < hubSendCap
      · simp [hubBroadcastStep, List.filter, List.filterMap, hx] at ih ⊢
        exact ih
      · simp [hubBroadcastStep, List.filter, List.filterMap, hx] at ih ⊢
        exact ih

/-- Witness for the amended C8 theorem: one full subscriber stays
subscribed (missing the message), one empty subscriber receives it. -/
theorem fanout_slow_consumer_witness :
    (⟨List.replicate 10 0⟩ : Consumer) ∈ notifySubscribers [⟨List.replicate 10 0⟩] 7 ∧
      (⟨[(7 : ℤ)]⟩ : Consumer) ∈ notifySubscribers [⟨[]⟩] 7 :=
  ⟨(fanout_slow_consumer [⟨List.replicate 10 0⟩] [] 7 ⟨List.replicate 10 0⟩).2.1
      (by simp) (by simp [subscriberCap]),
    by
      have h := (fanout_slow_consumer [⟨[]⟩] [] 7 ⟨[]⟩).2.2.1 (by simp)
        (by simp [subscriberCap])
      simpa using h⟩

/-! ### C7 — stream client: offline sentinel and reconnect backoff -/

/-- A flagged client never dials again: any run of the reconnect loop from a
vehicle-offline state performs zero connection attempts and leaves the state
untouched. -/
lemma runLoop_offline (c : ClientState) (inputs : List LoopInput)
    (hoff : c.vehicleOffline = true) : runLoop c inputs = (c, 0) := by
  cases inputs with
  | nil => rfl
  | cons i rest =>
    simp [runLoop, loopIter, hoff]

/-- C7: a `data:error` of type `vehicle_error` whose payload contains
"offline" sets the vehicle-offline flag, emits only the offline notice, and
from then on the reconnect loop makes no connection attempt until
`ResetAndRestart` clears the flag (and resets the delay); every other
`vehicle_error` and every `vehicle_disconnected` requests a reconnect; a
failed dial waits the current delay and doubles it clamped at 30 s; the
delay starts at 1 s and a successful dial resets it to 1 s. -/
theorem stream_client_offline_and_backoff (c : ClientState) (v : String)
    (inputs : List LoopInput)
    (hoff : containsSubstring "offline" v = true)
    (hnoff : c.vehicleOffline = false)
    (hlow : 1 ≤ c.currentDelay) (hhigh : c.currentDelay ≤ maxReconnectDelay) :
    handleMessage c ⟨"data:error", "vehicle_error", v⟩
        = ({ c with vehicleOffline := true }, [.onVehicleOffline]) ∧
    (∀ w, containsSubstring "offline" w = false →
      handleMessage c ⟨"data:error", "vehicle_error", w⟩ = (c, [.reconnectRequest])) ∧
    (∀ w, handleMessage c ⟨"data:error", "vehicle_disconnected", w⟩
        = (c, [.reconnectRequest])) ∧
    runLoop { c with vehicleOffline := true } inputs = ({ c with vehicleOffline := true }, 0) ∧
    (resetAndRestart { c with vehicleOffline := true }).vehicleOffline = false ∧
    (resetAndRestart c).currentDelay = reconnectDelayInitial ∧
    newClientState.currentDelay = 1 ∧
    ((loopIter c .connectFail).waited = some c.currentDelay ∧
      (loopIter c .connectFail).state.currentDelay = min (2 * c.currentDelay) maxReconnectDelay ∧
      1 ≤ (loopIter c .connectFail).state.currentDelay ∧
      (loopIter c .connectFail).state.currentDelay ≤ maxReconnectDelay) ∧
    (loopIter c (.sessionThenDrop false)).state.currentDelay = reconnectDelayInitial ∧
    (loopIter c (.sessionThenDrop true)).continues = false := by
  refine ⟨?_, ?_, ?_, runLoop_offline _ inputs rfl, rfl, rfl, rfl, ?_, ?_, ?_⟩
  · simp [handleMessage, hoff]
  · intro w hw
    simp [handleMessage, hw]
  · intro w
    simp [handleMessage]
  · have hmin : (if c.currentDelay * 2 > maxReconnectDelay then maxReconnectDelay
        else c.currentDelay * 2) = min (2 * c.currentDelay) maxReconnectDelay := by
      rw [mul_comm]
      split_ifs with h
      · rw [min_eq_right (le_of_lt h)]
      · rw [min_eq_left (not_lt.mp h)]
    refine ⟨by simp [loopIter, hnoff], ?_, ?_, ?_⟩
    · simp only [loopIter, hnoff, Bool.false_eq_true, if_false]
      exact hmin
    · simp only [loopIter, hnoff, Bool.false_eq_true, if_false]
      rw [hmin]
      have h2 : 1 ≤ 2 * c.currentDelay := by linarith
      have h30 : (1 : ℚ) ≤ maxReconnectDelay := by norm_num [maxReconnectDelay]
      exact le_min h2 h30
    · simp only [loopIter, hnoff, Bool.false_eq_true, if_false]
      rw [hmin]
      exact min_le_right _ _
  · simp [loopIter, hnoff]
  · simp [loopIter, hnoff]

/-- Witness for C7: the fresh client, the literal offline payload, and a
two-iteration input trace. -/
theorem stream_client_offline_and_backoff_witness :
    containsSubstring "offline" "tag vehicle offline disconnect" = true ∧
    newClientState.vehicleOffline = false ∧
    (1 : ℚ) ≤ newClientState.currentDelay ∧
    newClientState.currentDelay ≤ maxReconnectDelay ∧
    handleMessage newClientState
        ⟨"data:error", "vehicle_error", "tag vehicle offline disconnect"⟩
      = ({ newClientState with vehicleOffline := true }, [.onVehicleOffline]) ∧
    runLoop { newClientState with vehicleOffline := true } [.connectFail, .connectFail]
      = ({ newClientState with vehicleOffline := true }, 0) := by
  have h := stream_client_offline_and_backoff newClientState
    "tag vehicle offline disconnect" [.connectFail, .connectFail]
    (by decide) rfl (by norm_num [newClientState]) (by norm_num [newClientState, maxReconnectDelay])
  exact ⟨by decide, rfl, by norm_num [newClientState], by norm_num [newClientState, maxReconnectDelay],
    h.1, h.2.2.2.1⟩

/-! ### C9 — drive-stats energy aggregates -/

/-- In a pairwise-related list, every consecutive pair (as produced by
zipping with the tail) is related. -/
lemma pairwise_zip_tail {α : Type} {R : α → α → Prop} :
    ∀ (l : List α), l.Pairwise R → ∀ p ∈ l.zip l.tail, R p.1 p.2
  | [], _, p, hp => absurd hp (by simp)
  | [_], _, p, hp => absurd hp (by simp)
  | a :: b :: t, h, p, hp => by
    rw [List.tail_cons, List.zip_cons_cons] at hp
    rcases List.mem_cons.mp hp with rfl | hp2
    · exact (List.pairwise_cons.mp h).1 b (by simp)
    · exact pairwise_zip_tail (b :: t) (List.pairwise_cons.mp h).2 p hp2

/-- Consecutive pairs of the time-sorted trajectory are in time order. -/
lemma consecutivePairs_sorted (ps : List Position) :
    ∀ p ∈ consecutivePairs (sortByRecordedAt ps), p.1.recordedAt ≤ p.2.recordedAt :=
  pairwise_zip_tail (sortByRecordedAt ps) (List.sorted_insertionSort posLe ps)

/-- The SQL `CASE WHEN power > 0` summand equals the spec's
`max(0, power) × Δt / 3600` summand. -/
lemma energyUsedTerm_eq (a b : Position) :
    energyUsedTerm a b =
      (if b.recordedAt - a.recordedAt < 60 then
        max 0 (a.power : ℚ) * (b.recordedAt - a.recordedAt) / 3600 else 0) := by
  unfold energyUsedTerm
  split_ifs with h1 h2
  · rw [max_eq_right]
    exact_mod_cast le_of_lt h2
  · push_neg at h2
    rw [max_eq_left, zero_mul, zero_div]
    exact_mod_cast h2
  · rfl

/-- The SQL `CASE WHEN power < 0 THEN ABS(power)` summand equals the spec's
`max(0, −power) × Δt / 3600` summand. -/
lemma energyRegenTerm_eq (a b : Position) :
    energyRegenTerm a b =
      (if b.recordedAt - a.recordedAt < 60 then
        max 0 (-(a.power : ℚ)) * (b.recordedAt - a.recordedAt) / 3600 else 0) := by
  unfold energyRegenTerm
  split_ifs with h1 h2
  · have hneg : (a.power : ℚ) < 0 := by exact_mod_cast h2
    rw [abs_of_neg hneg, max_eq_right (by linarith : (0 : ℚ) ≤ -(a.power : ℚ))]
  · push_neg at h2
    have hpos : (0 : ℚ) ≤ (a.power : ℚ) := by exact_mod_cast h2
    rw [max_eq_left (by linarith : -(a.power : ℚ) ≤ 0), zero_mul, zero_div]
  · rfl

/-- The code's energy-used sum is the spec's sum. -/
lemma energyUsedSum_eq_spec (ps : List Position) :
    energyUsedSum ps = specEnergyUsed ps :=
  congrArg List.sum (List.map_congr_left fun ab _ => energyUsedTerm_eq ab.1 ab.2)

/-- The code's energy-regen sum is the spec's sum. -/
lemma energyRegenSum_eq_spec (ps : List Position) :
    energyRegenSum ps = specEnergyRegen ps :=
  congrArg List.sum (List.map_congr_left fun ab _ => energyRegenTerm_eq ab.1 ab.2)

/-- The spec's energy-used sum is non-negative (time gaps of the sorted
trajectory are non-negative). -/
lemma specEnergyUsed_nonneg (ps : List Position) : 0 ≤ specEnergyUsed ps := by
  refine List.sum_nonneg ?_
  intro x hx
  rcases List.mem_map.mp hx with ⟨ab, hab, rfl⟩
  have hdt : 0 ≤ ab.2.recordedAt - ab.1.recordedAt :=
    sub_nonneg.mpr (consecutivePairs_sorted ps ab hab)
  split_ifs
  · have hmax : (0 : ℚ) ≤ max 0 (ab.1.power : ℚ) := le_max_left _ _
    positivity
  · exact le_refl 0

/-- The spec's energy-regen sum is non-negative. -/
lemma specEnergyRegen_nonneg (ps : List Position) : 0 ≤ specEnergyRegen ps := by
  refine List.sum_nonneg ?_
  intro x hx
  rcases List.mem_map.mp hx with ⟨ab, hab, rfl⟩
  have hdt : 0 ≤ ab.2.recordedAt - ab.1.recordedAt :=
    sub_nonneg.mpr (consecutivePairs_sorted ps ab hab)
  split_ifs
  · have hmax : (0 : ℚ) ≤ max 0 (-(ab.1.power : ℚ)) := le_max_left _ _
    positivity
  · exact le_refl 0

/-- C9 (amended): over any trajectory, the drive-stats energy aggregation
stores `some` of the spec's sum `Σ max(0, power)·Δt/3600` (gaps of ≥ 60 s
discarded) when that sum is positive and leaves the field unset (SQL NULL)
when the sum is zero; dually for regen with `max(0, −power)`; both sums are
non-negative, so any stored aggregate is positive. -/
theorem drive_stats_energy (ps : List Position) :
    GetDriveStatsEnergy ps =
      ((if specEnergyUsed ps > 0 then some (specEnergyUsed ps) else none),
       (if specEnergyRegen ps > 0 then some (specEnergyRegen ps) else none)) ∧
    0 ≤ specEnergyUsed ps ∧ 0 ≤ specEnergyRegen ps := by
  refine ⟨?_, specEnergyUsed_nonneg ps, specEnergyRegen_nonneg ps⟩
  unfold GetDriveStatsEnergy
  rw [energyUsedSum_eq_spec, energyRegenSum_eq_spec]

/-- Two-sample regen-only trajectory: power −36 kW for 10 s. -/
def posRegenA : Position :=
  { carId := 1, driveId := some 1, latitude := 30, longitude := 120, heading := 90,
    speed := some 40, power := -36, odometer := 100, batteryLevel := 80, rangeKm := 300,
    insideTemp := none, outsideTemp := none, elevation := none,
    tpmsPressureFL := none, tpmsPressureFR := none, tpmsPressureRL := none,
    tpmsPressureRR := none, recordedAt := 0 }

/-- The follow-up sample 10 s later with zero power. -/
def posRegenB : Position :=
  { posRegenA with power := 0, recordedAt := 10 }

/-- Counterexample to C9 as stated: on a drive that only regenerated
(powers −36 then 0, Δt = 10 s) the spec's energy-used sum is 0, but the
computed `energy_used_kwh` is not that sum — it is left NULL (`none`), the
code storing a value only when the sum is strictly positive.  (The regen
aggregate is 36 × 10 / 3600 = 0.1 kWh.) -/
theorem drive_stats_energy_counterexample :
    GetDriveStatsEnergy [posRegenA, posRegenB] = (none, some (1 / 10)) ∧
      specEnergyUsed [posRegenA, posRegenB] = 0 ∧
      (none : Option ℚ) ≠ some 0 := by
  have hsort : sortByRecordedAt [posRegenA, posRegenB] = [posRegenA, posRegenB] := by
    unfold sortByRecordedAt
    simp [List.insertionSort, List.orderedInsert, posLe, posRegenA, posRegenB]
  refine ⟨?_, ?_, by simp⟩
  · unfold GetDriveStatsEnergy energyUsedSum energyRegenSum consecutivePairs
    rw [hsort]
    norm_num [energyUsedTerm, energyRegenTerm, posRegenA, posRegenB]
  · unfold specEnergyUsed consecutivePairs
    rw [hsort]
    norm_num [posRegenA, posRegenB]

/-! ### C2 — position–drive linkage -/

/-- None of the tuple assignments or gap fills of the streaming insert
touches `DriveID`. -/
lemma streamPos_steps_driveId (d : StreamData) (cached : SnapshotState) (p : Position) :
    (streamPosSoc d p).driveId = p.driveId ∧
    (streamPosRange d p).driveId = p.driveId ∧
    (streamPosOdometer d p).driveId = p.driveId ∧
    (streamPosElevation d p).driveId = p.driveId ∧
    (fillBattery cached p).driveId = p.driveId ∧
    (fillRange cached p).driveId = p.driveId ∧
    (fillOdometer cached p).driveId = p.driveId ∧
    (fillHeading cached p).driveId = p.driveId ∧
    (fillInsideTemp cached p).driveId = p.driveId ∧
    (fillOutsideTemp cached p).driveId = p.driveId := by
  unfold streamPosSoc streamPosRange streamPosOdometer streamPosElevation
    fillBattery fillRange fillOdometer fillHeading fillInsideTemp fillOutsideTemp
  refine ⟨?_, ?_, ?_, ?_, ?_, ?_, ?_, ?_, ?_, ?_⟩ <;> split_ifs <;> rfl

/-- The embedded `createPosition` never assigns `DriveID`: the poll-path sample keeps the
Go zero value (nil). -/
lemma createPosition_driveId (carId : ℤ) (now : ℚ) (d : VehicleData) :
    (createPosition carId now d).driveId = none := by
  rcases d with ⟨st, cs, cls, ds, vb⟩
  cases cs <;> cases cls <;> cases ds <;> cases vb <;> rfl

/-- C2 (amended): a position synthesized from a stream tuple while the
machine is driving (valid coordinates, an open drive row found) is linked to
that open drive; a position persisted by the poll path is created with
`drive_id` unset (nil) — only pre-existing rows of the table can carry a
drive id. -/
theorem position_drive_linkage :
    (∀ (carId : ℤ) (now : ℚ) (d : StreamData) (drv : Drive) (cached : SnapshotState),
      d.estLat ≠ 0 → d.estLng ≠ 0 →
      (streamPersistPosition carId now .driving d (some drv) cached).map Position.driveId
        = some (some drv.id)) ∧
    (∀ (cfg : Config) (now : ℚ) (carId : ℤ) (s : VState) (fetch : FetchResult)
      (lu0 i0 : Option ℚ) (posDb : List Position) (vs : SnapshotState) (p : Position),
      p ∈ (pollVehicle cfg now carId s fetch lu0 i0 posDb vs).positions →
      p ∈ posDb ∨ p.driveId = none) := by
  constructor
  · intro carId now d drv cached h1 h2
    unfold streamPersistPosition
    rw [if_pos ⟨rfl, h1, h2⟩]
    show some (Position.driveId _) = _
    congr 1
    rw [(streamPos_steps_driveId d cached _).2.2.2.2.2.2.2.2.2,
      (streamPos_steps_driveId d cached _).2.2.2.2.2.2.2.2.1,
      (streamPos_steps_driveId d cached _).2.2.2.2.2.2.2.1,
      (streamPos_steps_driveId d cached _).2.2.2.2.2.2.1,
      (streamPos_steps_driveId d cached _).2.2.2.2.2.1,
      (streamPos_steps_driveId d cached _).2.2.2.2.1,
      (streamPos_steps_driveId d cached _).2.2.2.1,
      (streamPos_steps_driveId d cached _).2.2.1,
      (streamPos_steps_driveId d cached _).2.1,
      (streamPos_steps_driveId d cached _).1]
    rfl
  · intro cfg now carId s fetch lu0 i0 posDb vs p hp
    cases fetch with
    | unavailable => exact Or.inl hp
    | failure => exact Or.inl hp
    | ok d =>
      simp only [pollVehicle] at hp
      split at hp <;>
        · dsimp only at hp
          split at hp
          · rcases List.mem_append.mp hp with h | h
            · exact Or.inl h
            · right
              rw [List.mem_singleton.mp h]
              exact createPosition_driveId carId now d
          · exact Or.inl hp

/-- Counterexample to C2 as stated: with the machine driving (shift D keeps
it driving through the transition handler) and an open drive of id 1, the
poll path persists a position whose `drive_id` is nil, not the open drive's
id. -/
theorem position_drive_linkage_counterexample :
    isDrivingData dataDriving = true ∧
    (pollVehicle defaultConfig 100 1 .driving (.ok dataDriving)
        (some 0) (some 3) [] snap0).positions.map Position.driveId = [none] ∧
    openDriveEx.endTime = none ∧ (none : Option ℤ) ≠ some openDriveEx.id := by
  refine ⟨by decide, by decide, rfl, by decide⟩

/-- Witness for the amended C2 theorem: the driving tuple against the open
drive of id 1. -/
theorem position_drive_linkage_witness :
    tupleDriving.estLat ≠ 0 ∧ tupleDriving.estLng ≠ 0 ∧
    (streamPersistPosition 1 5 .driving tupleDriving (some openDriveEx) snap0).map
        Position.driveId = some (some openDriveEx.id) :=
  ⟨by decide, by decide,
    position_drive_linkage.1 1 5 tupleDriving openDriveEx snap0 (by decide) (by decide)⟩

/-! ### C1 — stop_driving opens a Parking -/

/-- After the force-close pass, no open parking row of the car remains. -/
lemma forceClose_no_open (carId : ℤ) (endTime : ℚ) (db : List Parking) :
    ∀ q ∈ ForceCloseOpenParkings carId endTime db, ¬(q.carId = carId ∧ q.endTime = none) := by
  intro q hq
  rcases List.mem_map.mp hq with ⟨q0, _, rfl⟩
  by_cases h : q0.carId = carId ∧ q0.endTime = none
  · rw [if_pos h]
    rintro ⟨-, hend⟩
    simp at hend
  · rw [if_neg h]
    exact h

/-- The start-side field groups of the inserted parking row, by cases on the
snapshot's sub-records. -/
lemma startParkingRow_fields (now : ℚ) (freshId carId : ℤ) (d : VehicleData) :
    (startParkingRow now freshId carId d).carId = carId ∧
    (startParkingRow now freshId carId d).endTime = none ∧
    (startParkingRow now freshId carId d).startTime = now ∧
    (∀ cs, d.chargeState = some cs →
      (startParkingRow now freshId carId d).startBatteryLevel = cs.batteryLevel ∧
      (startParkingRow now freshId carId d).startRangeKm = MilesToKm cs.estBatteryRange) ∧
    (∀ v, d.vehicleState = some v →
      (startParkingRow now freshId carId d).startOdometer = MilesToKm v.odometer ∧
      (startParkingRow now freshId carId d).startLocked = v.locked ∧
      (startParkingRow now freshId carId d).startSentryMode = v.sentryMode ∧
      (startParkingRow now freshId carId d).startDoorsOpen = anyDoorOpen v ∧
      (startParkingRow now freshId carId d).startWindowsOpen = anyWindowOpen v) ∧
    (∀ ds, d.driveState = some ds →
      (startParkingRow now freshId carId d).latitude = ds.latitude ∧
      (startParkingRow now freshId carId d).longitude = ds.longitude) ∧
    (∀ c, d.climateState = some c →
      (startParkingRow now freshId carId d).startIsClimateOn = c.isClimateOn) := by
  rcases d with ⟨st, cs, cls, ds, vb⟩
  unfold startParkingRow parkFromClimateState parkFromBodyState parkFromChargeState
    parkFromDriveState parkBase
  cases cs <;> cases cls <;> cases ds <;> cases vb <;>
    refine ⟨rfl, rfl, rfl, ?_, ?_, ?_, ?_⟩ <;>
      (intro x hx
       first
         | exact Option.noConfusion hx
         | (cases hx
            repeat' apply And.intro
            all_goals rfl))

/-- C1 (spec-modelled dispatcher): processing an actual `stop_driving`
transition (driving → online, the snapshot no longer reporting a drive)
lands the machine in `online` and leaves exactly one open parking row
(end_time null) for the car, whose start-side fields are taken from the
causing snapshot. -/
theorem stop_driving_opens_parking (now : ℚ) (freshId carId : ℤ) (d : VehicleData)
    (db : List Parking) (hnd : isDrivingData d = false) :
    (processStopDriving now freshId carId .driving d db).1 = VState.online ∧
    (∃ p ∈ (processStopDriving now freshId carId .driving d db).2,
      p.carId = carId ∧ p.endTime = none ∧ p.startTime = now ∧
      (∀ cs, d.chargeState = some cs →
        p.startBatteryLevel = cs.batteryLevel ∧
        p.startRangeKm = MilesToKm cs.estBatteryRange) ∧
      (∀ v, d.vehicleState = some v →
        p.startOdometer = MilesToKm v.odometer ∧ p.startLocked = v.locked ∧
        p.startSentryMode = v.sentryMode ∧ p.startDoorsOpen = anyDoorOpen v ∧
        p.startWindowsOpen = anyWindowOpen v) ∧
      (∀ ds, d.driveState = some ds →
        p.latitude = ds.latitude ∧ p.longitude = ds.longitude) ∧
      (∀ c, d.climateState = some c → p.startIsClimateOn = c.isClimateOn)) ∧
    ((processStopDriving now freshId carId .driving d db).2.filter fun q =>
        decide (q.carId = carId) && decide (q.endTime = none)).length = 1 := by
  have hcond : VState.driving = VState.driving ∧ ¬ isDrivingData d = true := by
    simp [hnd]
  unfold processStopDriving
  rw [if_pos hcond]
  obtain ⟨hcar, hend, hstart, hrest⟩ := startParkingRow_fields now freshId carId d
  refine ⟨rfl, ⟨startParkingRow now freshId carId d,
    List.mem_append_right _ (List.mem_singleton_self _),
    hcar, hend, hstart, hrest⟩, ?_⟩
  unfold startParking
  rw [List.filter_append]
  have h1 : (ForceCloseOpenParkings carId now db).filter
      (fun q => decide (q.carId = carId) && decide (q.endTime = none)) = [] := by
    rw [List.filter_eq_nil_iff]
    intro q hq
    have := forceClose_no_open carId now db q hq
    simp only [Bool.and_eq_true, decide_eq_true_eq]
    exact fun h => this h
  have h2 : ([startParkingRow now freshId carId d].filter
      fun q => decide (q.carId = carId) && decide (q.endTime = none))
      = [startParkingRow now freshId carId d] := by
    rw [List.filter_singleton]
    simp [hcar, hend]
  rw [h1, h2]
  rfl

/-- Witness for C1: the parked snapshot on a database holding one stale open
parking of the same car. -/
theorem stop_driving_opens_parking_witness :
    isDrivingData dataParked = false ∧
    (processStopDriving 500 9 1 .driving dataParked
      [{ parkBase 0 7 1 with endTime := none }]).1 = VState.online :=
  ⟨by decide,
    (stop_driving_opens_parking 500 9 1 dataParked
      [{ parkBase 0 7 1 with endTime := none }] (by decide)).1⟩

/-! ### C5 — lightweight probe for suspended/asleep/offline -/

/-- A full acquisition hits exactly the full-data endpoint. -/
lemma pollVehicle_calls (cfg : Config) (now : ℚ) (carId : ℤ) (s : VState)
    (fetch : FetchResult) (lu0 i0 : Option ℚ) (posDb : List Position) (vs : SnapshotState) :
    (pollVehicle cfg now carId s fetch lu0 i0 posDb vs).calls = [ApiCall.getVehicleData] := by
  cases fetch with
  | unavailable => rfl
  | failure => rfl
  | ok d =>
    unfold pollVehicle
    dsimp only
    split_ifs <;> rfl

/-- C5: a tick of a suspended/asleep/offline vehicle dispatches the
lightweight probe; the probe's first (and, unless it reports online, only)
endpoint is the state listing; the full-data endpoint is hit exactly when
the listing reports online (promotion within the same tick); a listing of
"asleep" moves the machine to asleep from suspended or asleep and leaves
offline unchanged (no legal edge); a listing of "offline" moves every one of
the three states to offline (including the suspended → offline edge). -/
theorem lightweight_probe (cfg : Config) (now : ℚ) (carId : ℤ) (fetch : FetchResult)
    (lu0 i0 : Option ℚ) (posDb : List Position) (vs : SnapshotState)
    (s : VState) (hs : s = VState.suspended ∨ s = VState.asleep ∨ s = VState.offline)
    (probe : Option String) :
    dispatchPoll cfg now carId s probe fetch lu0 i0 posDb vs
        = pollVehicleLightweight cfg now carId s probe fetch lu0 i0 posDb vs ∧
    (pollVehicleLightweight cfg now carId s probe fetch lu0 i0 posDb vs).calls.head?
        = some ApiCall.getVehicle ∧
    (ApiCall.getVehicleData
        ∈ (pollVehicleLightweight cfg now carId s probe fetch lu0 i0 posDb vs).calls
      ↔ probe = some "online") ∧
    (probe = some "asleep" →
      (pollVehicleLightweight cfg now carId s probe fetch lu0 i0 posDb vs).state
        = if s = VState.offline then VState.offline else VState.asleep) ∧
    (probe = some "offline" →
      (pollVehicleLightweight cfg now carId s probe fetch lu0 i0 posDb vs).state
        = VState.offline) := by
  have hdisp : dispatchPoll cfg now carId s probe fetch lu0 i0 posDb vs
      = pollVehicleLightweight cfg now carId s probe fetch lu0 i0 posDb vs := by
    unfold dispatchPoll
    rw [if_pos hs]
  refine ⟨hdisp, ?_⟩
  cases probe with
  | none =>
    obtain rfl | rfl | rfl := hs <;> simp [pollVehicleLightweight]
  | some r =>
    by_cases hr : r = "online"
    · subst hr
      refine ⟨?_, ?_, ?_, ?_⟩
      · simp [pollVehicleLightweight]
      · simp [pollVehicleLightweight, pollVehicle_calls]
      · intro h
        simp at h
      · intro h
        simp at h
    · by_cases hra : r = "asleep"
      · subst hra
        obtain rfl | rfl | rfl := hs <;>
          simp [pollVehicleLightweight, transitionToSleepOrOffline, canTransition,
            trigger, eventDst, stateName]
      · by_cases hro : r = "offline"
        · subst hro
          obtain rfl | rfl | rfl := hs <;>
            simp [pollVehicleLightweight, transitionToSleepOrOffline, canTransition,
              trigger, eventDst, stateName]
        · obtain rfl | rfl | rfl := hs <;>
            simp [pollVehicleLightweight, hr, hra, hro]

/-- Witness for C5: a suspended vehicle probed while the listing reports
asleep — only the listing endpoint is called and the machine takes the
suspended → asleep edge. -/
theorem lightweight_probe_witness :
    (pollVehicleLightweight defaultConfig 50 1 .suspended (some "asleep") .failure
        (some 0) (some 3) [] snap0).calls.head? = some ApiCall.getVehicle ∧
    (pollVehicleLightweight defaultConfig 50 1 .suspended (some "asleep") .failure
        (some 0) (some 3) [] snap0).state = VState.asleep := by
  have h := lightweight_probe defaultConfig 50 1 .failure (some 0) (some 3) [] snap0
    .suspended (Or.inl rfl) (some "asleep")
  refine ⟨h.2.1, ?_⟩
  have h2 := h.2.2.2.1 rfl
  simpa using h2

end Tesgazer
